import Mathlib

set_option maxRecDepth 16384

/-!
Shallow embedding of the travel-chatbot service
(`app/services/travel_chat/travel_chat.py` and its route
`travel_chat_route.py`) for checking the natural-language specification.

Modelling conventions:
* Python `datetime` instants are integers (seconds); `timedelta(seconds=k)`
  is the integer `k`.
* HTTP interactions are passed in explicitly: each network-touching
  operation takes the response it would observe.  A value `none` for an
  optional response stands for a request that raised (network error or a
  body on which `.json()` raised); a present response carries the status
  code and the already-parsed fields the code reads.
* Python exceptions are the explicit error type `PyErr`; a function that
  may raise returns `Except PyErr _`.
* Python truthiness on strings/options (`if self.token`, `if city_name`,
  `if not city_code`, `rating or default`) is modelled by explicit
  truthiness functions.
* The generative-AI calls (Groq) are modelled in the configuration where
  `groq_api_key` is unset, in which the code deterministically takes its
  documented fallback path (`fallback_language_detection`,
  `generate_simple_hotel_response`, `get_fallback_conversational_response`).
-/

/-- Python exceptions that the modelled code can raise. -/
inductive PyErr where
  | connectionError (msg : String)
  | keyError (key : String)
  | valueError (msg : String)
  deriving DecidableEq

instance {ε α : Type} [DecidableEq ε] [DecidableEq α] : DecidableEq (Except ε α) := fun a b => by
  cases a <;> cases b
  case error.error x y =>
    exact if h : x = y then isTrue (by rw [h]) else isFalse (by intro hc; cases hc; exact h rfl)
  case ok.ok x y =>
    exact if h : x = y then isTrue (by rw [h]) else isFalse (by intro hc; cases hc; exact h rfl)
  case error.ok x y => exact isFalse (by intro hc; cases hc)
  case ok.error x y => exact isFalse (by intro hc; cases hc)

/-- Truthiness of a Python `Optional[str]`: `None` and `""` are falsy. -/
def pyTruthyStr : Option String → Bool
  | none => false
  | some s => !(s == "")

/-! ## Token cache (`TravelChatService.__init__` lines 35-36, `get_access_token` lines 42-63) -/

/-- The two cache fields `self.token` / `self.token_expiry` of
`TravelChatService`.  `tokenExpiry` is a timestamp in seconds. -/
structure TokenState where
  token : Option String
  tokenExpiry : Option Int
  deriving DecidableEq

/-- `__init__` sets `self.token = None` and `self.token_expiry = None`. -/
def initState : TokenState := ⟨none, none⟩

/-- The parsed response of the OAuth2 token endpoint as the code reads it:
status code, the optional keys `access_token` and `expires_in` of the JSON
body (`none` = key absent, which makes the subscript raise `KeyError`),
and `response.text` used in the error message. -/
structure TokenHttpResponse where
  status : Nat
  accessToken : Option String
  expiresIn : Option Int
  text : String
  deriving DecidableEq

/-- The cache-hit test
`if self.token and self.token_expiry and datetime.now() < self.token_expiry`:
Python truthiness makes an empty-string token falsy; a datetime is always
truthy. -/
def cacheHit (st : TokenState) (now : Int) : Bool :=
  pyTruthyStr st.token &&
    (match st.tokenExpiry with
     | none => false
     | some e => decide (now < e))

/-- Result of one call to `get_access_token`: the returned token or the
raised exception, the cache state after the call, and how many
client-credentials exchanges (POSTs to the token endpoint) were made. -/
structure TokenCallResult where
  result : Except PyErr String
  state : TokenState
  exchanges : Nat
  deriving DecidableEq

/-- `get_access_token` (lines 42-63).  On a cache hit it returns the cached
token without a network exchange.  Otherwise it performs one exchange:
non-200 raises `ConnectionError`; on 200 it assigns
`self.token = token_data["access_token"]` first and only then
`self.token_expiry = now + (expires_in - 300)`, so a body with
`access_token` but without `expires_in` mutates `token` and then raises
`KeyError` before touching `tokenExpiry`. -/
def get_access_token (st : TokenState) (now : Int) (resp : TokenHttpResponse) :
    TokenCallResult :=
  if cacheHit st now then
    { result := .ok (st.token.getD ""), state := st, exchanges := 0 }
  else if resp.status ≠ 200 then
    { result := .error (.connectionError ("Failed to get access token: " ++ resp.text)),
      state := st, exchanges := 1 }
  else
    match resp.accessToken with
    | none => { result := .error (.keyError "access_token"), state := st, exchanges := 1 }
    | some tok =>
      match resp.expiresIn with
      | none =>
          { result := .error (.keyError "expires_in"),
            state := { st with token := some tok }, exchanges := 1 }
      | some expIn =>
          { result := .ok tok,
            state := { token := some tok, tokenExpiry := some (now + (expIn - 300)) },
            exchanges := 1 }

/-! ## Hotel lookup (`get_hotels_by_city`, lines 254-288) -/

/-- One element of the `data` array of the hotels-by-city endpoint, as the
code reads it with `.get`: every field optional.  The opaque JSON values of
`address` and `geoCode` are carried as strings. -/
structure RawHotel where
  name : Option String
  hotelId : Option String
  address : Option String
  geoCode : Option String
  deriving DecidableEq

/-- Parsed hotels-by-city response: status and the `data` array
(`data.get("data", [])`). -/
structure HotelsResponse where
  status : Nat
  data : List RawHotel
  deriving DecidableEq

/-- A dict appended to `hotel_list` in `get_hotels_by_city`:
`{"name": ..., "hotel_id": ..., "address": ..., "geoCode": ...}`. -/
structure HotelEntry where
  name : String
  hotel_id : String
  address : String
  geoCode : String
  deriving DecidableEq

/-- `get_hotels_by_city` (lines 254-288).  `resp = none` stands for a raised
request/parse exception, caught by the outer `except` which returns `[]`.
Non-200 returns `[]`.  On 200 it walks `hotels[:8]` and keeps entries whose
`name` and `hotel_id` are both truthy (`if name and hotel_id`: absent keys
and empty strings are skipped). -/
def get_hotels_by_city (resp : Option HotelsResponse) : List HotelEntry :=
  match resp with
  | none => []
  | some r =>
    if r.status = 200 then
      (r.data.take 8).filterMap fun h =>
        match h.name, h.hotelId with
        | some n, some i =>
          if n ≠ "" ∧ i ≠ "" then some ⟨n, i, h.address.getD "", h.geoCode.getD ""⟩
          else none
        | _, _ => none
    else []

/-! ## Ratings (`get_hotel_rating` lines 290-331, `get_hotels_with_ratings` lines 333-352) -/

/-- One element of the sentiment endpoint's `data` array:
`sentiment.get("overallRating")`.  The 0-100 score is modelled as an
integer. -/
structure SentimentEntry where
  overallRating : Option Int
  deriving DecidableEq

/-- Parsed hotel-sentiments response. -/
structure SentimentResponse where
  status : Nat
  data : List SentimentEntry
  deriving DecidableEq

/-- Python 3 `round` (round half to even) of the exact fraction `num / den`
(`den > 0`).  For integer scores in 0-100 the float division
`float(score) / 20` is exact at every half-integer, so rounding the exact
fraction agrees with Python's `round(float(score) / 20)` there. -/
def pyRoundDiv (num den : Int) : Int :=
  let f := num.fdiv den
  let r := num.fmod den
  if 2 * r < den then f
  else if den < 2 * r then f + 1
  else if f % 2 = 0 then f else f + 1

/-- The star conversion of `get_hotel_rating` (lines 316-317):
`stars = round(float(overall_rating) / 20); stars = max(1, min(5, stars))`. -/
def starsOf (score : Int) : Int :=
  max 1 (min 5 (pyRoundDiv score 20))

/-- `"⭐" * stars`. -/
def starString (n : Nat) : String :=
  String.join (List.replicate n "⭐")

/-- `get_hotel_rating` (lines 290-331).  `resp = none` is a raised request
exception, caught and turned into `None`.  Non-200, an empty `data` array,
a missing `overallRating`, and a falsy rating (`if overall_rating:` — a
score of 0 is falsy) all yield `None`; otherwise the star string
`"⭐"*stars + f" ({overall_rating}/100)"`. -/
def get_hotel_rating (resp : Option SentimentResponse) : Option String :=
  match resp with
  | none => none
  | some r =>
    if r.status = 200 then
      match r.data with
      | [] => none
      | s :: _ =>
        match s.overallRating with
        | none => none
        | some score =>
          if score ≠ 0 then
            some (starString (starsOf score).toNat ++ " (" ++ toString score ++ "/100)")
          else none
    else none

/-- Python `rating or "Rating not available"`: `None` and `""` are falsy. -/
def pyOrStr (a : Option String) (b : String) : String :=
  match a with
  | none => b
  | some s => if s = "" then b else s

/-- A dict appended to `hotels_with_ratings` in `get_hotels_with_ratings`. -/
structure RatedHotel where
  name : String
  rating : String
  hotel_id : String
  address : String
  geoCode : String
  deriving DecidableEq

/-- Result of `get_hotels_with_ratings`: the enriched list plus the trace of
hotel ids passed to `get_hotel_rating`, one per loop iteration, in order. -/
structure EnrichResult where
  hotels : List RatedHotel
  calls : List String
  deriving DecidableEq

/-- `get_hotels_with_ratings` (lines 333-352).  The loop body calls
`get_hotel_rating(hotel_id)` once per input record — `sentiments` maps a
hotel id to the sentiment response that call observes — and appends a
record whose rating is `rating or "Rating not available"`. -/
def get_hotels_with_ratings
    (hotelsData : List HotelEntry) (sentiments : String → Option SentimentResponse) :
    EnrichResult :=
  match hotelsData with
  | [] => ⟨[], []⟩
  | h :: rest =>
    let rating := get_hotel_rating (sentiments h.hotel_id)
    let tail := get_hotels_with_ratings rest sentiments
    ⟨⟨h.name, pyOrStr rating "Rating not available", h.hotel_id, h.address, h.geoCode⟩
        :: tail.hotels,
      h.hotel_id :: tail.calls⟩

/-! ## Python string primitives used by the detector

Messages are processed as `List Char`.  Case mapping models Python's
`str.lower` / `str.upper` on the ASCII and Latin-1 letters, which cover
every character the code's keyword lists and patterns contain. -/

/-- Python's `needle in hay` on strings: `needle` occurs as a contiguous
run of `hay`. -/
def containsSub (needle : List Char) : List Char → Bool
  | [] => needle.isPrefixOf []
  | c :: rest => needle.isPrefixOf (c :: rest) || containsSub needle rest

/-- `str.lower` on one character (ASCII `A`-`Z` and Latin-1 `À`-`Þ`
except `×`). -/
def pyLowerChar (c : Char) : Char :=
  if ('A' ≤ c ∧ c ≤ 'Z') ∨ ('À' ≤ c ∧ c ≤ 'Þ' ∧ c ≠ '×') then Char.ofNat (c.toNat + 32)
  else c

/-- `str.upper` on one character (ASCII `a`-`z` and Latin-1 `à`-`þ`
except `÷`). -/
def pyUpperChar (c : Char) : Char :=
  if ('a' ≤ c ∧ c ≤ 'z') ∨ ('à' ≤ c ∧ c ≤ 'þ' ∧ c ≠ '÷') then Char.ofNat (c.toNat - 32)
  else c

/-- `str.lower` of a whole string. -/
def pyLower (s : List Char) : List Char := s.map pyLowerChar

/-- The characters Python's `\s` (and `str.strip()`) treats as whitespace:
space, tab, newline, carriage return, vertical tab, form feed. -/
def isPySpace (c : Char) : Bool :=
  c = ' ' || c = '\t' || c = '\n' || c = '\r' || c = Char.ofNat 11 || c = Char.ofNat 12

/-- `str.strip()`. -/
def pyStrip (s : List Char) : List Char :=
  ((s.dropWhile isPySpace).reverse.dropWhile isPySpace).reverse

/-- A letter for `str.title()` purposes (ASCII and Latin-1 letters). -/
def isPyAlpha (c : Char) : Bool :=
  (decide ('a' ≤ c ∧ c ≤ 'z') || decide ('A' ≤ c ∧ c ≤ 'Z') ||
    (decide ('À' ≤ c ∧ c ≤ 'ÿ') && !(c = '×') && !(c = '÷')))

/-- Worker for `str.title()`: `prev` says whether the previous character was
a letter; a letter after a non-letter is uppercased, a letter after a letter
is lowercased. -/
def pyTitleGo : Bool → List Char → List Char
  | _, [] => []
  | prev, c :: rest =>
    (if isPyAlpha c then (if prev then pyLowerChar c else pyUpperChar c) else c) ::
      pyTitleGo (isPyAlpha c) rest

/-- `str.title()`. -/
def pyTitle (s : List Char) : List Char := pyTitleGo false s

/-! ## The city-extraction regexes (lines 154-227)

Every pattern of `extract_city_english` / `extract_city_french` /
`extract_city_malagasy` has the shape

  PREFIX-TOKENS `([^,.\n]+?)(?:\s|$|,|\.)`

where the prefix is a sequence of literals, alternations of literals
(including the optional `(?:s)?`), `\s+` runs and one lazy `.*?`.  The
matcher below implements `re.search` for exactly that fragment: it scans
start positions left to right, and at a given start explores the prefix
tokens in backtracking preference order (alternatives in written order,
`\s+` greedy, `.*?` lazy), then matches the capture group non-greedily. -/

/-- One prefix token of a city pattern. -/
inductive Tok where
  | lit (s : List Char)
  | alts (ss : List (List Char))
  | ws
  | lazyAny
  deriving DecidableEq

/-- Suffixes reachable by `.*?` (shortest consumption first; `.` does not
match a newline). -/
def lazyAnySuffixes : List Char → List (List Char)
  | [] => [[]]
  | c :: rest => (c :: rest) :: (if c = '\n' then [] else lazyAnySuffixes rest)

/-- Suffixes reachable by one token from input `s`, in regex preference
order. -/
def matchTok : Tok → List Char → List (List Char)
  | .lit l, s => if l.isPrefixOf s then [s.drop l.length] else []
  | .alts as, s => as.flatMap fun a => if a.isPrefixOf s then [s.drop a.length] else []
  | .ws, s =>
    let n := (s.takeWhile isPySpace).length
    (List.range n).map fun i => s.drop (n - i)
  | .lazyAny, s => lazyAnySuffixes s

/-- Suffixes reachable by a token sequence, in backtracking order. -/
def matchSeq : List Tok → List Char → List (List Char)
  | [], s => [s]
  | t :: ts, s => (matchTok t s).flatMap (matchSeq ts)

/-- A character the group `[^,.\n]` can consume. -/
def isCapChar (c : Char) : Bool := !(c = ',' || c = '.' || c = '\n')

/-- A character closing the capture: `(?:\s|,|\.)` (end of input also
closes it, handled by the matcher). -/
def isDelim (c : Char) : Bool := isPySpace c || c = ',' || c = '.'

/-- Non-greedy continuation of the capture after at least one character has
been consumed (`acc` is reversed): stop at the first delimiter or at the
end of input. -/
def captureGo (acc : List Char) : List Char → Option (List Char)
  | [] => some acc.reverse
  | c :: rest =>
    if isDelim c then some acc.reverse
    else if isCapChar c then captureGo (c :: acc) rest
    else none

/-- Match `([^,.\n]+?)(?:\s|$|,|\.)` and return the captured group. -/
def captureCity : List Char → Option (List Char)
  | [] => none
  | c :: rest => if isCapChar c then captureGo [c] rest else none

/-- `re.search` for a city pattern: try each start position left to right;
at each, try the prefix continuations in preference order and then the
capture. -/
def reSearch (toks : List Tok) : List Char → Option (List Char)
  | [] => (matchSeq toks []).findSome? captureCity
  | c :: rest =>
    match (matchSeq toks (c :: rest)).findSome? captureCity with
    | some cap => some cap
    | none => reSearch toks rest

/-- The optional plural `(?:s)?` / `s?`. -/
def optS : Tok := .alts [['s'], []]

/-- The three patterns of `extract_city_english` (lines 156-160). -/
def english_patterns : List (List Tok) :=
  [ [.lit "hotel".data, optS, .lit " in ".data],
    [.lit "hotel".data, optS, .lit " ".data, .alts ["at".data, "from".data], .lit " ".data],
    [.alts ["find".data, "search".data, "show".data, "get".data],
      .lit " hotel".data, optS, .lit " in ".data] ]

/-- `extract_city_english` (lines 154-166): first pattern that matches on
the lowered message wins; the capture is stripped and title-cased. -/
def extract_city_english (message : String) : Option String :=
  english_patterns.findSome? fun p =>
    (reSearch p (pyLower message.data)).map fun cap => String.mk (pyTitle (pyStrip cap))

/-- The four patterns of `extract_city_french` (lines 170-175). -/
def french_patterns : List (List Tok) :=
  [ [.lit "hôtel".data, optS, .ws, .lit "à".data, .ws],
    [.lit "des".data, .ws, .lit "hôtel".data, optS, .ws, .lit "à".data, .ws],
    [.lit "hôtel".data, optS, .ws, .lit "dans".data, .ws],
    [.lit "cherche".data, .lazyAny, .lit "hôtel".data, optS, .ws, .lit "à".data, .ws] ]

/-- `extract_city_french` (lines 168-181). -/
def extract_city_french (message : String) : Option String :=
  french_patterns.findSome? fun p =>
    (reSearch p (pyLower message.data)).map fun cap => String.mk (pyTitle (pyStrip cap))

/-- The Malagasy-to-English city table of `extract_city_malagasy`
(lines 186-202), in the source's insertion order. -/
def city_mapping : List (String × String) :=
  [ ("antananarivo", "Antananarivo"), ("toamasina", "Toamasina"),
    ("antsirabe", "Antsirabe"), ("fianarantsoa", "Fianarantsoa"),
    ("mahajanga", "Mahajanga"), ("toliara", "Toliara"),
    ("antsiranana", "Antsiranana"), ("dhaka", "Dhaka"), ("mumbai", "Mumbai"),
    ("delhi", "Delhi"), ("paris", "Paris"), ("london", "London"),
    ("tokyo", "Tokyo"), ("new york", "New York"), ("sydney", "Sydney") ]

/-- The four patterns of `extract_city_malagasy` (lines 205-210). -/
def malagasy_patterns : List (List Tok) :=
  [ [.lit "hotely".data, .ws, .lit "any".data, .ws],
    [.lit "tiako".data, .ws, .lit "hotely".data, .ws, .lit "any".data, .ws],
    [.lit "asehoy".data, .ws, .lit "hotely".data, .ws, .lit "any".data, .ws],
    [.lit "any".data, .ws] ]

/-- `extract_city_malagasy` (lines 183-227): a pattern capture is looked up
in the table (mapped name on a hit, title-cased capture otherwise); if no
pattern matches, the table is scanned for a key occurring as a substring of
the lowered message. -/
def extract_city_malagasy (message : String) : Option String :=
  let ml := pyLower message.data
  match malagasy_patterns.findSome? (fun p => reSearch p ml) with
  | some cap =>
    let cityFound := pyStrip cap
    match city_mapping.find? (fun kv => kv.1.data == cityFound) with
    | some kv => some kv.2
    | none => some (String.mk (pyTitle cityFound))
  | none =>
    (city_mapping.find? (fun kv => containsSub kv.1.data ml)).map (fun kv => kv.2)

/-! ## `fallback_language_detection` (lines 126-152) -/

/-- `french_indicators` (line 131). -/
def french_indicators : List (List Char) :=
  [ "je veux".data, "des hôtels".data, "à".data, "montrez-moi".data,
    "je cherche".data, "bonjour".data, "dans".data ]

/-- `malagasy_indicators` (line 132). -/
def malagasy_indicators : List (List Char) :=
  [ "tiako".data, "hotely".data, "any".data, "asehoy".data,
    "manao ahoana".data, "salama".data, "toerana".data ]

/-- `fallback_language_detection` (lines 126-152): substring membership of
the indicator lists over the lowered message, French tested before
Malagasy, English the default; then the language-specific extractor. -/
def fallback_language_detection (message : String) : String × Option String :=
  let ml := pyLower message.data
  let detected_language :=
    if french_indicators.any (fun i => containsSub i ml) then "french"
    else if malagasy_indicators.any (fun i => containsSub i ml) then "malagasy"
    else "english"
  let city :=
    if detected_language = "french" then extract_city_french message
    else if detected_language = "malagasy" then extract_city_malagasy message
    else extract_city_english message
  (detected_language, city)

/-! ## Response composers (lines 361-368, 461-479, 570-611) -/

/-- `generate_no_hotels_response` (lines 361-368). -/
def generate_no_hotels_response (language city_name : String) : String :=
  if language == "french" then
    "Désolé, je n'ai pas pu trouver d'hôtels disponibles à " ++ city_name ++
      ". Cette ville pourrait ne pas être disponible dans notre base de données ou il pourrait y avoir un problème temporaire. Veuillez essayer une autre ville ou réessayer plus tard. 🏨"
  else if language == "malagasy" then
    "Miala tsiny, tsy nahita hotely misy any " ++ city_name ++
      " aho. Mety tsy misy ity tanàna ity ao amin'ny angon-draharaha na misy olana vonjimaika. Andramo tanàna hafa na avereno indray tatỳ aoriana. 🏨"
  else
    "Sorry, I couldn't find any hotels available in " ++ city_name ++
      ". This city might not be available in our database or there might be a temporary issue. Please try a different city or try again later. 🏨"

/-- The numbered hotel lines of `generate_simple_hotel_response`:
`f"{i}. {hotel['name']} - {hotel['rating']}\n"` with `i` counting from 1. -/
def hotelLinesGo (i : Nat) : List RatedHotel → String
  | [] => ""
  | h :: rest =>
    toString i ++ ". " ++ h.name ++ " - " ++ h.rating ++ "\n" ++ hotelLinesGo (i + 1) rest

/-- `generate_simple_hotel_response` (lines 461-479): per-language header,
numbered hotel lines, total-count footer, then `.strip()`. -/
def generate_simple_hotel_response
    (language city_name : String) (hotels : List RatedHotel) : String :=
  let body := hotelLinesGo 1 hotels
  let response :=
    if language == "french" then
      "🏨 Voici les hôtels disponibles à " ++ city_name ++
        " (données réelles d'Amadeus):\n\n" ++ body ++
        "\nTotal: " ++ toString hotels.length ++ " hôtels trouvés! ✨"
    else if language == "malagasy" then
      "🏨 Ireto ny hotely misy any " ++ city_name ++
        " (angon-drakitra marina avy amin'ny Amadeus):\n\n" ++ body ++
        "\nTotaliny: hotely " ++ toString hotels.length ++ " no hita! ✨"
    else
      "🏨 Here are available hotels in " ++ city_name ++
        " (real data from Amadeus):\n\n" ++ body ++
        "\nTotal " ++ toString hotels.length ++ " hotels found! ✨"
  String.mk (pyStrip response.data)

/-- `greetings` of `get_fallback_conversational_response` (lines 575-579). -/
def greetings : List (String × List String) :=
  [ ("english", ["hello", "hi", "hey"]),
    ("french", ["bonjour", "salut", "bonsoir"]),
    ("malagasy", ["manao ahoana", "salama", "akory"]) ]

/-- `help_words` (lines 582-586). -/
def help_words : List (String × List String) :=
  [ ("english", ["help", "what can you do"]),
    ("french", ["aide", "aidez-moi", "que pouvez-vous faire"]),
    ("malagasy", ["fanampiana", "ampianao", "inona no vitanao"]) ]

/-- Python `dict.get(key, [])` over an association list. -/
def dictGet (d : List (String × List String)) (k : String) : List String :=
  ((d.find? (fun kv => kv.1 == k)).map (fun kv => kv.2)).getD []

/-- `get_fallback_conversational_response` (lines 570-611, the second,
overriding definition): classify the lowered message as greeting / help /
other by keyword membership for the detected language and return the
corresponding canned string. -/
def get_fallback_conversational_response (language message : String) : String :=
  let ml := pyLower message.data
  let is_greeting := (dictGet greetings language).any fun w => containsSub w.data ml
  let is_help := (dictGet help_words language).any fun w => containsSub w.data ml
  if language == "french" then
    if is_greeting then
      "Bonjour! 👋 Je peux vous aider à trouver des hôtels dans n'importe quelle ville du monde. Dites-moi simplement où vous voulez séjourner!"
    else if is_help then
      "Je peux vous montrer des listes d'hôtels par ville! 🏨 Dites simplement 'Je veux des hôtels à [nom de la ville]'. Essayez: 'Montrez-moi des hôtels à Paris'"
    else
      "Je peux vous aider à trouver des hôtels! 🏨 Dites-moi dans quelle ville vous êtes intéressé. Exemple: 'Je veux des hôtels à Tokyo'"
  else if language == "malagasy" then
    if is_greeting then
      "Manao ahoana! 👋 Afaka manampy anao hitady hotely any amin'ny tanàna rehetra eran'izao tontolo izao aho. Lazao fotsiny hoe aiza no tianao hivonana!"
    else if is_help then
      "Afaka mampiseho lisitry ny hotely isaky ny tanàna aho! 🏨 Lazao fotsiny hoe 'Tiako hotely any [anaran'ny tanàna]'. Andramo: 'Asehoy ny hotely any Antananarivo'"
    else
      "Afaka manampy anao hitady hotely aho! 🏨 Lazao ahy hoe amin'ny tanàna inona no liana ianao. Ohatra: 'Tiako hotely any Paris'"
  else
    if is_greeting then
      "Hello! 👋 I can help you find hotels in any city worldwide. Just tell me where you want to stay!"
    else if is_help then
      "I can show you hotel lists for any city! 🏨 Just say 'I want hotels in [city name]'. Try: 'Show me hotels in Paris'"
    else
      "I can help you find hotels! 🏨 Just tell me which city you're interested in. Example: 'Hotels in London please'"

/-! ## City resolver (`get_city_code`, lines 229-252) -/

/-- Parsed locations response: status and the optional `iataCode` of each
element of the `data` array. -/
structure LocationsResponse where
  status : Nat
  iataCodes : List (Option String)
  deriving DecidableEq

/-- `get_city_code` (lines 229-252): on 200 with a non-empty `data` array,
`locations[0].get("iataCode")`; every other outcome (non-200, empty array,
raised exception = `none` response) falls through to `return None`. -/
def get_city_code (resp : Option LocationsResponse) : Option String :=
  match resp with
  | none => none
  | some r =>
    if r.status = 200 then
      match r.iataCodes with
      | [] => none
      | c :: _ => c
    else none

/-! ## `process_message` (lines 613-672) and the route (`chat_with_bot`, lines 38-81) -/

/-- The `HotelInfo` pydantic model (schema file). -/
structure HotelInfo where
  name : String
  price : Option String
  rating : Option String
  location : Option String
  deriving DecidableEq

/-- The `ChatResponse` pydantic model: response text and the optional
hotels list (`None` when the constructor is called without it).
`destinations` is always `None` in this service and `timestamp` is a
wall-clock default; both are omitted. -/
structure ChatResponse where
  response : String
  hotels : Option (List HotelInfo)
  deriving DecidableEq

/-- The upstream world one request observes: the token-cache state and
clock, the token-endpoint response, and the responses of the three data
endpoints keyed by their request parameter. -/
structure Env where
  tokenState : TokenState
  now : Int
  tokenResp : TokenHttpResponse
  locations : String → Option LocationsResponse
  hotelsByCity : String → Option HotelsResponse
  sentiments : String → Option SentimentResponse

/-- `process_message` (lines 613-672) in the deterministic (no Groq key)
configuration: detection is `fallback_language_detection`; the composers
are the deterministic fallbacks.  A raised `ConnectionError` from
`get_access_token` is re-raised unchanged by the `except` clauses
(lines 666-672), as is any other exception. -/
def process_message (message : String) (env : Env) : Except PyErr ChatResponse :=
  let detected := fallback_language_detection message
  let language := detected.1
  let city_name := detected.2
  if pyTruthyStr city_name then
    let cityName := city_name.getD ""
    let tokenCall := get_access_token env.tokenState env.now env.tokenResp
    match tokenCall.result with
    | .error e => .error e
    | .ok _access_token =>
      let city_code := get_city_code (env.locations cityName)
      if !(pyTruthyStr city_code) then
        .ok ⟨generate_no_hotels_response language cityName, none⟩
      else
        let hotels_data := get_hotels_by_city (env.hotelsByCity (city_code.getD ""))
        if hotels_data ≠ [] then
          let enriched := get_hotels_with_ratings hotels_data env.sentiments
          let hotel_info_list := enriched.hotels.map fun h =>
            HotelInfo.mk h.name none (some h.rating) (some cityName)
          .ok ⟨generate_simple_hotel_response language cityName enriched.hotels,
                some hotel_info_list⟩
        else
          .ok ⟨generate_no_hotels_response language cityName, none⟩
  else
    .ok ⟨get_fallback_conversational_response language message, none⟩

/-- The HTTP status produced by the route `chat_with_bot`
(`travel_chat_route.py` lines 49-81) for a `process_message` outcome:
success → 200, `ValueError` → 400, `ConnectionError` → 503, anything
else → 500. -/
def chat_with_bot_status : Except PyErr ChatResponse → Nat
  | .ok _ => 200
  | .error (.valueError _) => 400
  | .error (.connectionError _) => 503
  | .error _ => 500

/-- An environment for concrete runs: token exchange succeeds, "Paris"
resolves to "PAR", which has two hotels, the first rated 85 and the second
unrated. -/
def envHappy : Env :=
  { tokenState := initState
    now := 0
    tokenResp := ⟨200, some "tok", some 1799, ""⟩
    locations := fun c => if c == "Paris" then some ⟨200, [some "PAR"]⟩ else none
    hotelsByCity := fun c =>
      if c == "PAR" then
        some ⟨200, [⟨some "Hotel Alpha", some "H1", none, none⟩,
                    ⟨some "Hotel Beta", some "H2", none, none⟩]⟩
      else none
    sentiments := fun i => if i == "H1" then some ⟨200, [⟨some 85⟩]⟩ else none }

/-- An environment identical to `envHappy` except that the token endpoint
rejects the exchange with 401. -/
def envAuthFail : Env := { envHappy with tokenResp := ⟨401, none, none, "denied"⟩ }

/-- An environment identical to `envHappy` except that the token endpoint
returns 200 with a body that lacks `access_token`. -/
def envKeyErr : Env := { envHappy with tokenResp := ⟨200, none, none, ""⟩ }

/-- An environment identical to `envHappy` except that the hotels-by-city
endpoint returns 200 with an empty `data` array for every city. -/
def envParisEmpty : Env := { envHappy with hotelsByCity := fun _ => some ⟨200, []⟩ }

/-- An environment identical to `envHappy` except that no city resolves to
a location code. -/
def envNoCode : Env := { envHappy with locations := fun _ => none }

/-- Helper: a cache hit returns the cached token with the state unchanged
and no exchange. -/
theorem get_access_token_hit (st : TokenState) (now : Int) (resp : TokenHttpResponse)
    (h : cacheHit st now = true) :
    get_access_token st now resp = ⟨.ok (st.token.getD ""), st, 0⟩ := by
  simp [get_access_token, h]

/-- Helper: every cache miss performs exactly one exchange, whatever the
response. -/
theorem get_access_token_miss_exchanges (st : TokenState) (now : Int)
    (resp : TokenHttpResponse) (h : cacheHit st now = false) :
    (get_access_token st now resp).exchanges = 1 := by
  obtain ⟨rs, rat, rei, rtext⟩ := resp
  unfold get_access_token
  rw [h]
  simp only [Bool.false_eq_true, if_false]
  split
  · rfl
  · rcases rat with _ | tok
    · rfl
    · rcases rei with _ | expIn <;> rfl

/-- Helper: a cache miss answered 200 with both keys stores the token and
`now + (expires_in - 300)` and returns the token. -/
theorem get_access_token_miss_success (st : TokenState) (now : Int)
    (resp : TokenHttpResponse) (tok : String) (expIn : Int)
    (h : cacheHit st now = false) (hs : resp.status = 200)
    (ha : resp.accessToken = some tok) (he : resp.expiresIn = some expIn) :
    get_access_token st now resp =
      ⟨.ok tok, ⟨some tok, some (now + (expIn - 300))⟩, 1⟩ := by
  unfold get_access_token
  rw [h, hs]
  simp only [Bool.false_eq_true, if_false, ne_eq, not_true_eq_false]
  rw [ha, he]

/-- Helper: a state holding a non-empty token with an expiry in the future
is a cache hit. -/
theorem cacheHit_of_fresh (tok : String) (e now : Int) (htok : tok ≠ "")
    (hlt : now < e) : cacheHit ⟨some tok, some e⟩ now = true := by
  simp [cacheHit, pyTruthyStr, htok, hlt]

/-- C1: a call to `get_access_token` with a cached token and a current time
strictly before its stored expiry returns the cached token with no network
exchange; any other call performs exactly one exchange, and when that
exchange succeeds it stores the returned token with expiry
`now + (expires_in - 300)` and returns it; consequently a second call
within the expiry window performs no further exchange, so two calls in the
window make exactly one exchange in total. -/
theorem token_cache_single_exchange (st : TokenState) (now now2 : Int)
    (resp resp2 : TokenHttpResponse) (tok : String) (expIn : Int) :
    (cacheHit st now = true →
      get_access_token st now resp = ⟨.ok (st.token.getD ""), st, 0⟩)
    ∧ (cacheHit st now = false → (get_access_token st now resp).exchanges = 1)
    ∧ (cacheHit st now = false → resp.status = 200 →
        resp.accessToken = some tok → resp.expiresIn = some expIn →
        get_access_token st now resp =
          ⟨.ok tok, ⟨some tok, some (now + (expIn - 300))⟩, 1⟩)
    ∧ (cacheHit st now = false → resp.status = 200 →
        resp.accessToken = some tok → resp.expiresIn = some expIn →
        tok ≠ "" → now2 < now + (expIn - 300) →
        (get_access_token (get_access_token st now resp).state now2 resp2).result
            = .ok tok
          ∧ (get_access_token st now resp).exchanges +
              (get_access_token (get_access_token st now resp).state now2 resp2).exchanges
            = 1) := by
  refine ⟨get_access_token_hit st now resp, get_access_token_miss_exchanges st now resp, ?_, ?_⟩
  · intro h hs ha he
    exact get_access_token_miss_success st now resp tok expIn h hs ha he
  · intro h hs ha he htok hlt
    rw [get_access_token_miss_success st now resp tok expIn h hs ha he]
    rw [get_access_token_hit _ now2 resp2 (cacheHit_of_fresh tok _ now2 htok hlt)]
    exact ⟨rfl, rfl⟩

/-- C1 witness: from the empty cache at time 0, an exchange returning token
`"abc"` with `expires_in = 1800` is stored with expiry 1500, and a second
call at time 100 returns `"abc"`, for one exchange in total. -/
theorem token_cache_single_exchange_witness :
    (get_access_token
        (get_access_token initState 0 ⟨200, some "abc", some 1800, ""⟩).state
        100 ⟨500, none, none, ""⟩).result = .ok "abc"
      ∧ (get_access_token initState 0 ⟨200, some "abc", some 1800, ""⟩).exchanges +
          (get_access_token
            (get_access_token initState 0 ⟨200, some "abc", some 1800, ""⟩).state
            100 ⟨500, none, none, ""⟩).exchanges = 1 :=
  (token_cache_single_exchange initState 0 100 ⟨200, some "abc", some 1800, ""⟩
      ⟨500, none, none, ""⟩ "abc" 1800).2.2.2
    (by decide) (by decide) (by decide) (by decide) (by decide) (by decide)

/-- C2 counterexample: from the initial state (both fields unset), a
refresh that fails partway through — the exchange returns 200 with an
`access_token` but no `expires_in`, so the second assignment raises
`KeyError` after the first has happened — leaves `token` set while
`token_expiry` is still unset, breaking the claimed both-or-neither
invariant. -/
theorem token_invariant_partial_failure_cex :
    (get_access_token initState 0 ⟨200, some "t", none, ""⟩).result
        = .error (.keyError "expires_in")
      ∧ (get_access_token initState 0 ⟨200, some "t", none, ""⟩).state.token = some "t"
      ∧ (get_access_token initState 0 ⟨200, some "t", none, ""⟩).state.tokenExpiry = none := by
  decide

/-- C2 amended: the cache pair starts with both fields unset and is touched
only by `get_access_token`; the both-or-neither invariant is preserved by
every call whose 200 response containing `access_token` also contains
`expires_in` — but a 200 response with `access_token` and without
`expires_in` sets the token and raises before setting the expiry, so the
invariant is not preserved by that partial failure. -/
theorem token_invariant_preserved (st : TokenState) (now : Int) (resp : TokenHttpResponse)
    (hinv : st.token.isSome = st.tokenExpiry.isSome)
    (hwf : resp.status = 200 → resp.accessToken.isSome = true → resp.expiresIn.isSome = true) :
    (get_access_token st now resp).state.token.isSome
      = (get_access_token st now resp).state.tokenExpiry.isSome := by
  obtain ⟨rs, rat, rei, rtext⟩ := resp
  by_cases h : cacheHit st now
  · rw [get_access_token_hit st now _ h]
    exact hinv
  · unfold get_access_token
    rw [Bool.not_eq_true] at h
    rw [h]
    simp only [Bool.false_eq_true, if_false]
    split
    · exact hinv
    · rcases rat with _ | tok
      · exact hinv
      · rcases rei with _ | expIn
        · rename_i hs
          simp only [ne_eq, not_not] at hs
          exact absurd (hwf hs rfl) (by simp)
        · rfl

/-- C2 amended witness: the invariant holds across a successful refresh
from the initial state. -/
theorem token_invariant_preserved_witness :
    (get_access_token initState 0 ⟨200, some "abc", some 1800, ""⟩).state.token.isSome
      = (get_access_token initState 0 ⟨200, some "abc", some 1800, ""⟩).state.tokenExpiry.isSome :=
  token_invariant_preserved initState 0 ⟨200, some "abc", some 1800, ""⟩ (by decide)
    (fun _ _ => by decide)

/-- C3 counterexample: `ConnectionError` is not the only error that
propagates from `process_message` to the request boundary: a token exchange
answered 200 with a body lacking `access_token` raises `KeyError`, which
`process_message` re-raises and the route maps to 500, not to the 503
class. -/
theorem only_auth_error_propagates_cex :
    process_message "hotels in paris" envKeyErr = .error (.keyError "access_token")
      ∧ chat_with_bot_status (process_message "hotels in paris" envKeyErr) = 500 := by
  decide

/-- C3 amended: when a refresh happens (cache miss), `get_access_token`
fails with `ConnectionError` exactly when the exchange does not return
HTTP 200 (a 200 body missing a required key fails with `KeyError`
instead); at the request boundary a `ConnectionError` is mapped to 503 —
but it is not the only propagating error: `process_message` re-raises
every exception, and a propagated `KeyError` is mapped to 500. -/
theorem auth_error_iff_non200 (st : TokenState) (now : Int) (resp : TokenHttpResponse)
    (h : cacheHit st now = false) :
    ((∃ m, (get_access_token st now resp).result = .error (.connectionError m))
        ↔ resp.status ≠ 200)
      ∧ (∀ m, chat_with_bot_status (.error (.connectionError m)) = 503)
      ∧ (∀ k, chat_with_bot_status (.error (.keyError k)) = 500) := by
  obtain ⟨rs, rat, rei, rtext⟩ := resp
  refine ⟨?_, fun m => rfl, fun k => rfl⟩
  unfold get_access_token
  rw [h]
  simp only [Bool.false_eq_true, if_false]
  by_cases hs : rs ≠ 200
  · simp [hs]
  · simp only [ne_eq, not_not] at hs
    rcases rat with _ | tok
    · simp [hs]
    · rcases rei with _ | expIn <;> simp [hs]

/-- C3 amended witness: a 401 exchange from the empty cache fails with
`ConnectionError`, and the route maps `ConnectionError` to 503 and
`KeyError` to 500. -/
theorem auth_error_iff_non200_witness :
    (∃ m, (get_access_token initState 0 ⟨401, none, none, "x"⟩).result
        = .error (.connectionError m))
      ∧ chat_with_bot_status (.error (.connectionError "z")) = 503
      ∧ chat_with_bot_status (.error (.keyError "k")) = 500 :=
  ⟨(auth_error_iff_non200 initState 0 ⟨401, none, none, "x"⟩ (by decide)).1.mpr (by decide),
    (auth_error_iff_non200 initState 0 ⟨401, none, none, "x"⟩ (by decide)).2.1 "z",
    (auth_error_iff_non200 initState 0 ⟨401, none, none, "x"⟩ (by decide)).2.2 "k"⟩

/-- C4 counterexample: for the message `"hotels in paris"` (which yields
the extracted city `"Paris"`), a failing AUTH step does not short-circuit
to a "no hotels found" message: `process_message` aborts the request by
re-raising the `ConnectionError`. -/
theorem auth_failure_aborts_cex :
    process_message "hotels in paris" envAuthFail =
      .error (.connectionError "Failed to get access token: denied") := by
  decide

/-- C4 amended: for a request whose message yields an extracted city, a
failure of the RESOLVE_CITY step (no usable city code) short-circuits to
the composed "no hotels found" message in the detected language with no
hotels list — but a failure of the AUTH step does not: `process_message`
re-raises the exception, aborting the request. -/
theorem resolve_city_failure_short_circuits (message : String) (env : Env)
    (hcity : pyTruthyStr (fallback_language_detection message).2 = true) :
    (∀ e, (get_access_token env.tokenState env.now env.tokenResp).result = .error e →
        process_message message env = .error e)
      ∧ (∀ tok, (get_access_token env.tokenState env.now env.tokenResp).result = .ok tok →
          pyTruthyStr (get_city_code (env.locations
              ((fallback_language_detection message).2.getD ""))) = false →
          process_message message env =
            .ok ⟨generate_no_hotels_response (fallback_language_detection message).1
                  ((fallback_language_detection message).2.getD ""), none⟩) := by
  constructor
  · intro e he
    simp only [process_message]
    rw [hcity, he]
    rfl
  · intro tok htok hcode
    simp only [process_message]
    rw [hcity, htok, hcode]
    rfl

/-- C4 amended witness: with `"hotels in paris"`, an unresolvable city
yields the English "no hotels found" response, while a 401 AUTH failure
aborts with the `ConnectionError`. -/
theorem resolve_city_failure_short_circuits_witness :
    process_message "hotels in paris" envNoCode =
        .ok ⟨generate_no_hotels_response (fallback_language_detection "hotels in paris").1
              ((fallback_language_detection "hotels in paris").2.getD ""), none⟩
      ∧ process_message "hotels in paris" envAuthFail =
          .error (.connectionError "Failed to get access token: denied") :=
  ⟨(resolve_city_failure_short_circuits "hotels in paris" envNoCode (by decide)).2
      "tok" (by decide) (by decide),
    (resolve_city_failure_short_circuits "hotels in paris" envAuthFail (by decide)).1
      (.connectionError "Failed to get access token: denied") (by decide)⟩

/-- C5 counterexample: the French greeting `"salut"` contains none of the
code's French indicator substrings, so the fallback detector classifies it
as English, not as `("french", None)` as the claim requires. -/
theorem fallback_greeting_salut_cex :
    fallback_language_detection "salut" = ("english", none)
      ∧ ¬ fallback_language_detection "salut" = ("french", none) := by
  decide

/-- C5 amended: the fallback detector returns the greeting's language with
no city only for the greetings that contain one of its indicator
substrings: `hello`/`hi`/`hey` give `(english, None)`, `bonjour` gives
`(french, None)`, and `manao ahoana`/`salama` give `(malagasy, None)`; but
the French greetings `salut` and `bonsoir` and the Malagasy greeting
`akory` contain no indicator and give `(english, None)`. -/
theorem fallback_detection_greetings :
    fallback_language_detection "hello" = ("english", none)
      ∧ fallback_language_detection "hi" = ("english", none)
      ∧ fallback_language_detection "hey" = ("english", none)
      ∧ fallback_language_detection "bonjour" = ("french", none)
      ∧ fallback_language_detection "manao ahoana" = ("malagasy", none)
      ∧ fallback_language_detection "salama" = ("malagasy", none)
      ∧ fallback_language_detection "salut" = ("english", none)
      ∧ fallback_language_detection "bonsoir" = ("english", none)
      ∧ fallback_language_detection "akory" = ("english", none) := by
  decide

/-- C6: `get_hotels_by_city` returns at most 8 hotel records, and returns
the empty list on a raised request error (`none` response) and on any
non-200 response. -/
theorem hotels_by_city_bounded (resp : Option HotelsResponse) :
    (get_hotels_by_city resp).length ≤ 8
      ∧ (resp = none → get_hotels_by_city resp = [])
      ∧ (∀ r, resp = some r → r.status ≠ 200 → get_hotels_by_city resp = []) := by
  refine ⟨?_, ?_, ?_⟩
  · rcases resp with _ | r
    · simp [get_hotels_by_city]
    · simp only [get_hotels_by_city]
      split
      · exact le_trans (List.length_filterMap_le _ _) (List.length_take_le 8 r.data)
      · simp
  · intro h
    rw [h]
    rfl
  · intro r h hs
    rw [h]
    simp [get_hotels_by_city, hs]

/-- C6 witness: a 500 response with one well-formed entry still yields the
empty list, which has length at most 8. -/
theorem hotels_by_city_bounded_witness :
    (get_hotels_by_city (some ⟨500, [⟨some "A", some "I", none, none⟩]⟩)).length ≤ 8
      ∧ get_hotels_by_city (some ⟨500, [⟨some "A", some "I", none, none⟩]⟩) = [] :=
  ⟨(hotels_by_city_bounded (some ⟨500, [⟨some "A", some "I", none, none⟩]⟩)).1,
    (hotels_by_city_bounded (some ⟨500, [⟨some "A", some "I", none, none⟩]⟩)).2.2
      _ rfl (by decide)⟩

/-- C7 counterexample: `"paris"` is a key of the only static city table in
the code, yet when the live hotel lookup returns nothing for Paris the
response is the composed "no hotels found" message with no hotels list —
no curated hotel names are used. -/
theorem no_static_fallback_table_cex :
    process_message "hotels in paris" envParisEmpty =
      .ok ⟨generate_no_hotels_response "english" "Paris", none⟩ := by
  decide

/-- C7 amended: there is no static hotel fallback table; whenever the live
lookup returns an empty list for a resolved city — recognized by the
spec's table or not — `process_message` answers with the "no hotels found"
message in the detected language and no hotels list. -/
theorem empty_lookup_yields_no_hotels (message : String) (env : Env)
    (hcity : pyTruthyStr (fallback_language_detection message).2 = true)
    (tok : String)
    (htok : (get_access_token env.tokenState env.now env.tokenResp).result = .ok tok)
    (hcode : pyTruthyStr (get_city_code (env.locations
        ((fallback_language_detection message).2.getD ""))) = true)
    (hempty : get_hotels_by_city (env.hotelsByCity
        ((get_city_code (env.locations
          ((fallback_language_detection message).2.getD ""))).getD "")) = []) :
    process_message message env =
      .ok ⟨generate_no_hotels_response (fallback_language_detection message).1
            ((fallback_language_detection message).2.getD ""), none⟩ := by
  simp only [process_message]
  rw [hcity, htok, hcode, hempty]
  rfl

/-- C7 amended witness: the Paris request with an empty live lookup gets
the English "no hotels found" message and no hotels list. -/
theorem empty_lookup_yields_no_hotels_witness :
    process_message "hotels in paris" envParisEmpty =
      .ok ⟨generate_no_hotels_response (fallback_language_detection "hotels in paris").1
            ((fallback_language_detection "hotels in paris").2.getD ""), none⟩ :=
  empty_lookup_yields_no_hotels "hotels in paris" envParisEmpty (by decide) "tok"
    (by decide) (by decide) (by decide)

/-- C8: the star conversion divides the 0-100 score by 20, rounds, and
clamps to [1,5]; a score of 100 gives 5 stars and a score of 1 gives 1
star (post-clamp); a score of 0 (falsy), a missing score, a non-200
response and a raised lookup all give `None`, which the enrichment turns
into the "Rating not available" placeholder. -/
theorem rating_conversion_boundaries :
    (∀ s : Int, 1 ≤ starsOf s ∧ starsOf s ≤ 5)
      ∧ starsOf 100 = 5
      ∧ starsOf 1 = 1
      ∧ get_hotel_rating (some ⟨200, [⟨some 100⟩]⟩) = some "⭐⭐⭐⭐⭐ (100/100)"
      ∧ get_hotel_rating (some ⟨200, [⟨some 1⟩]⟩) = some "⭐ (1/100)"
      ∧ get_hotel_rating (some ⟨200, [⟨some 0⟩]⟩) = none
      ∧ get_hotel_rating (some ⟨200, [⟨none⟩]⟩) = none
      ∧ get_hotel_rating (some ⟨404, [⟨some 80⟩]⟩) = none
      ∧ get_hotel_rating none = none
      ∧ (get_hotels_with_ratings [⟨"H", "I1", "", ""⟩]
            (fun _ => some ⟨200, [⟨some 0⟩]⟩)).hotels
          = [⟨"H", "Rating not available", "I1", "", ""⟩] := by
  refine ⟨fun s => ⟨le_max_left _ _, max_le (by norm_num) (min_le_left _ _)⟩, ?_⟩
  decide

/-- Helper: the enrichment's `rating or "Rating not available"` is never
the empty string. -/
theorem pyOrStr_rating_ne_empty (a : Option String) :
    (pyOrStr a "Rating not available" == "") = false := by
  rcases a with _ | s
  · decide
  · by_cases hs : s = ""
    · simp [pyOrStr, hs]
    · simp [pyOrStr, hs]

/-- C9: `get_hotels_with_ratings` produces exactly one output record per
input record in order (names preserved), every output rating is non-empty
(stars or the placeholder), and it performs exactly one rating call per
record — in particular, on the empty list it returns the empty list with
no rating calls. -/
theorem enrichment_preserves_records (hotelsData : List HotelEntry)
    (sentiments : String → Option SentimentResponse) :
    ((get_hotels_with_ratings hotelsData sentiments).hotels.length = hotelsData.length)
      ∧ ((get_hotels_with_ratings hotelsData sentiments).hotels.map RatedHotel.name
          = hotelsData.map HotelEntry.name)
      ∧ ((get_hotels_with_ratings hotelsData sentiments).hotels.all
          (fun rh => !(rh.rating == "")) = true)
      ∧ ((get_hotels_with_ratings hotelsData sentiments).calls
          = hotelsData.map HotelEntry.hotel_id)
      ∧ (get_hotels_with_ratings [] sentiments = ⟨[], []⟩) := by
  induction hotelsData with
  | nil => exact ⟨rfl, rfl, rfl, rfl, rfl⟩
  | cons h rest ih =>
    obtain ⟨ih1, ih2, ih3, ih4, _⟩ := ih
    refine ⟨?_, ?_, ?_, ?_, rfl⟩
    · simp [get_hotels_with_ratings, ih1]
    · simp [get_hotels_with_ratings, ih2]
    · simp only [get_hotels_with_ratings, List.all_cons, ih3, Bool.and_true]
      simp [pyOrStr_rating_ne_empty]
    · simp [get_hotels_with_ratings, ih4]

/-- C10: the fallback detector's language tests are substring membership
over the whole lowered message with French tested first: any message whose
lowered text contains `à` is classified French, and any message containing
the substring `any` but no French indicator is classified Malagasy. -/
theorem substring_language_classification (message : String) :
    (containsSub "à".data (pyLower message.data) = true →
        (fallback_language_detection message).1 = "french")
      ∧ (containsSub "any".data (pyLower message.data) = true →
          french_indicators.any (fun i => containsSub i (pyLower message.data)) = false →
          (fallback_language_detection message).1 = "malagasy") := by
  constructor
  · intro h
    have hfr : french_indicators.any (fun i => containsSub i (pyLower message.data)) = true :=
      List.any_eq_true.mpr ⟨"à".data, by simp [french_indicators], h⟩
    simp [fallback_language_detection, hfr]
  · intro h hfr
    have hmal : malagasy_indicators.any (fun i => containsSub i (pyLower message.data)) = true :=
      List.any_eq_true.mpr ⟨"any".data, by simp [malagasy_indicators], h⟩
    simp [fallback_language_detection, hfr, hmal]

/-- C10 witness: the Malagasy word `"tanàna"` is classified French because
of its `à`, and the English `"do you have any rooms"` is classified
Malagasy because of its `any`. -/
theorem substring_language_classification_witness :
    (fallback_language_detection "tanàna").1 = "french"
      ∧ (fallback_language_detection "do you have any rooms").1 = "malagasy" :=
  ⟨(substring_language_classification "tanàna").1 (by decide),
    (substring_language_classification "do you have any rooms").2 (by decide) (by decide)⟩
